import Mathlib

/-!
Verification of the tax-impact engine (`src/engine/tax_engine.py`).

The engine consumes a single numeric monthly income and returns a structured
comparison of the 2024 and 2026 personal-income-tax regimes.  Numbers are
modelled as rationals (the Python code does exact-looking arithmetic on
floats; every property below is about the algebraic structure of the
computation, not about binary floating-point representation).  Python's
`round(x, 2)` is modelled as rounding `x * 100` to the nearest integer
(ties do not matter for any property proved here).
-/

namespace TaxEngine

/-- Rounding to two decimal places, the model of Python `round(x, 2)`. -/
def roundTo2 (x : ℚ) : ℚ := (round (x * 100) : ℚ) / 100

/-- The per-regime result record (spec section 3, RegimeResult). -/
structure RegimeResult where
  gross_income : ℚ
  taxable_income : ℚ
  consolidated_relief : ℚ
  annual_tax : ℚ
  monthly_tax : ℚ
  effective_rate : ℚ
  deriving DecidableEq, Repr

/-- A RegimeResult together with the label the engine attaches
(`{"label": ..., **current}` in the unified return). -/
structure LabeledRegime where
  label : String
  result : RegimeResult
  deriving DecidableEq, Repr

/-- The `impact` sub-record of the final result. -/
structure Impact where
  monthly_relief : ℚ
  annual_relief : ℚ
  percentage_change : ℚ
  deriving DecidableEq, Repr

/-- The full structured result returned by `calculate_tax_impact`. -/
structure ImpactResult where
  monthly_income : ℚ
  annual_income : ℚ
  current : LabeledRegime
  proposed : LabeledRegime
  impact : Impact
  deriving DecidableEq, Repr

/-- Modelled from the spec: the marginal bracket walk of section 4.1 step 3.
`tax_rules_2024.py` and `tax_rules_2026.py` are not present under `src/`;
the spec describes the algorithm: each band is a `(width, rate)` slice,
the final unbounded band is `topRate`, and each band taxes only the
portion of the taxable income that falls inside it. -/
def bracketTax : List (ℚ × ℚ) → ℚ → ℚ → ℚ
  | [], topRate, t => topRate * max 0 t
  | (w, r) :: rest, topRate, t =>
      r * min (max 0 t) w + bracketTax rest topRate (t - w)

/-- Modelled from the spec: the 2024 consolidated-relief rule of section 3,
`max(200000, 0.01 * gross_income) + 0.20 * gross_income`. -/
def relief_2024 (g : ℚ) : ℚ := max 200000 (0.01 * g) + 0.20 * g

/-- Modelled from the spec: the 2024 PITA bracket bands (regime
configuration, spec sections 4.1 and 6).  The first band, 300000 at 7
percent, is fixed by the repository's own evaluation ground truth
(`src/evaluation.py`); the remaining bands follow the statutory 2024
PITA schedule the spec refers to. -/
def pitaBands2024 : List (ℚ × ℚ) :=
  [(300000, 0.07), (300000, 0.11), (500000, 0.15),
   (500000, 0.19), (1600000, 0.21)]

/-- Modelled from the spec: the 2024 top marginal rate (income above the
listed bands). -/
def pitaTopRate2024 : ℚ := 0.24

/-- Modelled from the spec: the 2026 consolidated-relief rule.  The spec
(section 4.1 step 1, section 9) fixes only the shape — a floor-or-percentage
term plus a flat percentage term — and leaves the 2026 constants as regime
configuration not present in the source; a representative configuration of
that shape is used.  No claim below depends on the 2026 constants. -/
def relief_2026 (g : ℚ) : ℚ := max 200000 (0.01 * g) + 0.20 * g

/-- Modelled from the spec: a representative 2026 reform band table of the
shape the spec requires (ordered, contiguous, starting at 0); the exact
2026 constants are regime configuration absent from the source. -/
def pitaBands2026 : List (ℚ × ℚ) :=
  [(800000, 0), (2200000, 0.15), (9000000, 0.18),
   (13000000, 0.21), (25000000, 0.23)]

/-- Modelled from the spec: the 2026 top marginal rate. -/
def pitaTopRate2026 : ℚ := 0.25

/-- Modelled from the spec: the Regime Calculator algorithm of section 4.1:
relief, then `taxable_income = max(0, gross_income - relief)`, then the
bracket walk, then the derived `monthly_tax` and guarded `effective_rate`. -/
def regimeCompute (relief : ℚ → ℚ) (bands : List (ℚ × ℚ)) (topRate : ℚ)
    (g : ℚ) : RegimeResult :=
  let cr := relief g
  let t := max 0 (g - cr)
  let tax := bracketTax bands topRate t
  { gross_income := g
    taxable_income := t
    consolidated_relief := cr
    annual_tax := tax
    monthly_tax := tax / 12
    effective_rate := if g > 0 then tax / g else 0 }

/-- Modelled from the spec: `calculate_pita_2024` of `tax_rules_2024.py`
(imported by the engine but not under `src/`). -/
def calculate_pita_2024 (g : ℚ) : RegimeResult :=
  regimeCompute relief_2024 pitaBands2024 pitaTopRate2024 g

/-- Modelled from the spec: `calculate_pita_2026` of `tax_rules_2026.py`
(imported by the engine but not under `src/`). -/
def calculate_pita_2026 (g : ℚ) : RegimeResult :=
  regimeCompute relief_2026 pitaBands2026 pitaTopRate2026 g

/-- The `zero_tax_result` template built at the top of
`calculate_tax_impact` (tax_engine.py lines 9-16). -/
def zero_tax_result (annual_income : ℚ) : RegimeResult :=
  { gross_income := annual_income
    taxable_income := 0
    consolidated_relief := 0
    annual_tax := 0
    monthly_tax := 0
    effective_rate := 0 }

/-- The branch-local intermediate values of `calculate_tax_impact`:
`current`, `proposed`, `annual_relief`, `monthly_relief`,
`percentage_change` are set in both arms of the conditional and flow
into the single unified return. -/
structure BranchVals where
  current : RegimeResult
  proposed : RegimeResult
  annual_relief : ℚ
  monthly_relief : ℚ
  percentage_change : ℚ
  deriving DecidableEq, Repr

/-- The conditional of `calculate_tax_impact` (tax_engine.py lines 18-38):
the taxable branch invokes both regime calculators and computes the relief
quantities at full precision; the exemption branch reuses the zero
template. -/
def branchVals (annual_income : ℚ) : BranchVals :=
  if annual_income > 800000 then
    let current := calculate_pita_2024 annual_income
    let proposed := calculate_pita_2026 annual_income
    let annual_relief := current.annual_tax - proposed.annual_tax
    { current := current
      proposed := proposed
      annual_relief := annual_relief
      monthly_relief := annual_relief / 12
      percentage_change :=
        if current.annual_tax > 0 then
          annual_relief / current.annual_tax * 100
        else 0 }
  else
    { current := zero_tax_result annual_income
      proposed := zero_tax_result annual_income
      annual_relief := 0
      monthly_relief := 0
      percentage_change := 0 }

/-- `calculate_tax_impact` (tax_engine.py lines 4-60): `annual_income` is
computed first, the conditional produces the branch-local values, and a
single unified return assembles the result, rounding the three impact
fields to two decimals. -/
def calculate_tax_impact (monthly_income : ℚ) : ImpactResult :=
  let annual_income := monthly_income * 12
  let b := branchVals annual_income
  { monthly_income := monthly_income
    annual_income := annual_income
    current := { label := "2024 PITA", result := b.current }
    proposed := { label := "2026 Reform", result := b.proposed }
    impact :=
      { monthly_relief := roundTo2 b.monthly_relief
        annual_relief := roundTo2 b.annual_relief
        percentage_change := roundTo2 b.percentage_change } }

/-- Unfolding lemma for the engine: the unified return assembled from the
branch-local values. -/
theorem calculate_tax_impact_def (m : ℚ) :
    calculate_tax_impact m =
      { monthly_income := m
        annual_income := m * 12
        current := { label := "2024 PITA", result := (branchVals (m * 12)).current }
        proposed := { label := "2026 Reform", result := (branchVals (m * 12)).proposed }
        impact :=
          { monthly_relief := roundTo2 (branchVals (m * 12)).monthly_relief
            annual_relief := roundTo2 (branchVals (m * 12)).annual_relief
            percentage_change := roundTo2 (branchVals (m * 12)).percentage_change } } := rfl

/-- The exemption arm of the conditional. -/
theorem branchVals_of_le {a : ℚ} (h : a ≤ 800000) :
    branchVals a =
      { current := zero_tax_result a
        proposed := zero_tax_result a
        annual_relief := 0
        monthly_relief := 0
        percentage_change := 0 } := by
  unfold branchVals
  rw [if_neg (not_lt.mpr h)]

/-- The taxable arm of the conditional. -/
theorem branchVals_of_gt {a : ℚ} (h : a > 800000) :
    branchVals a =
      { current := calculate_pita_2024 a
        proposed := calculate_pita_2026 a
        annual_relief :=
          (calculate_pita_2024 a).annual_tax - (calculate_pita_2026 a).annual_tax
        monthly_relief :=
          ((calculate_pita_2024 a).annual_tax - (calculate_pita_2026 a).annual_tax) / 12
        percentage_change :=
          if (calculate_pita_2024 a).annual_tax > 0 then
            ((calculate_pita_2024 a).annual_tax - (calculate_pita_2026 a).annual_tax) /
              (calculate_pita_2024 a).annual_tax * 100
          else 0 } := by
  unfold branchVals
  rw [if_pos h]

/-- Rounding fixes zero. -/
theorem roundTo2_zero : roundTo2 0 = 0 := by
  simp [roundTo2]

/-- C1: counterexample.  The claim says a negative `monthly_income` such as
-100 raises `InvalidInputError`; in the code there is no input validation at
all: `calculate_tax_impact (-100)` returns a normal exemption-branch result
(annual income -1200 is below the 800000 threshold), raising nothing. -/
theorem C1_counterexample :
    calculate_tax_impact (-100) =
      { monthly_income := -100
        annual_income := -1200
        current := { label := "2024 PITA", result := zero_tax_result (-1200) }
        proposed := { label := "2026 Reform", result := zero_tax_result (-1200) }
        impact := { monthly_relief := 0, annual_relief := 0, percentage_change := 0 } } := by
  have h : ((-100 : ℚ)) * 12 ≤ 800000 := by norm_num
  rw [calculate_tax_impact_def, branchVals_of_le h, roundTo2_zero]
  norm_num

/-- C1 (amended): every negative `monthly_income` is accepted without error;
since its annual income is below the threshold, the engine takes the
exemption branch and returns the zero-valued result built around the
(negative) annual income. -/
theorem C1_negative_input_accepted (m : ℚ) (h : m < 0) :
    calculate_tax_impact m =
      { monthly_income := m
        annual_income := m * 12
        current := { label := "2024 PITA", result := zero_tax_result (m * 12) }
        proposed := { label := "2026 Reform", result := zero_tax_result (m * 12) }
        impact := { monthly_relief := 0, annual_relief := 0, percentage_change := 0 } } := by
  have h12 : m * 12 ≤ 800000 := by nlinarith
  rw [calculate_tax_impact_def, branchVals_of_le h12, roundTo2_zero]

/-- C1 witness: the amended statement applied at `monthly_income = -100`. -/
theorem C1_negative_input_accepted_witness :
    calculate_tax_impact (-100) =
      { monthly_income := -100
        annual_income := (-100) * 12
        current := { label := "2024 PITA", result := zero_tax_result ((-100) * 12) }
        proposed := { label := "2026 Reform", result := zero_tax_result ((-100) * 12) }
        impact := { monthly_relief := 0, annual_relief := 0, percentage_change := 0 } } :=
  C1_negative_input_accepted (-100) (by norm_num)

/-- C2: branch convergence.  Below or at the threshold the relief is 0 and
current and proposed are the same zero-valued RegimeResult; above it the
relief is the rounded difference of the two regime calculators' annual
taxes, with `current` produced by the 2024 calculator and `proposed` by
the 2026 calculator on the annual income. -/
theorem C2_branch_convergence (m : ℚ) :
    (m * 12 ≤ 800000 →
      (calculate_tax_impact m).impact.annual_relief = 0 ∧
      (calculate_tax_impact m).current.result = (calculate_tax_impact m).proposed.result ∧
      (calculate_tax_impact m).current.result = zero_tax_result (m * 12)) ∧
    (m * 12 > 800000 →
      (calculate_tax_impact m).impact.annual_relief =
        roundTo2 ((calculate_pita_2024 (m * 12)).annual_tax -
          (calculate_pita_2026 (m * 12)).annual_tax) ∧
      (calculate_tax_impact m).current.result = calculate_pita_2024 (m * 12) ∧
      (calculate_tax_impact m).proposed.result = calculate_pita_2026 (m * 12)) := by
  constructor
  · intro h
    rw [calculate_tax_impact_def, branchVals_of_le h, roundTo2_zero]
    exact ⟨rfl, rfl, rfl⟩
  · intro h
    rw [calculate_tax_impact_def, branchVals_of_gt h]
    exact ⟨rfl, rfl, rfl⟩

/-- C2 witness: both branches exercised, at `monthly_income = 50000`
(annual 600000) and `monthly_income = 500000` (annual 6000000). -/
theorem C2_branch_convergence_witness :
    ((calculate_tax_impact 50000).impact.annual_relief = 0 ∧
      (calculate_tax_impact 50000).current.result =
        (calculate_tax_impact 50000).proposed.result ∧
      (calculate_tax_impact 50000).current.result = zero_tax_result (50000 * 12)) ∧
    ((calculate_tax_impact 500000).impact.annual_relief =
        roundTo2 ((calculate_pita_2024 (500000 * 12)).annual_tax -
          (calculate_pita_2026 (500000 * 12)).annual_tax) ∧
      (calculate_tax_impact 500000).current.result = calculate_pita_2024 (500000 * 12) ∧
      (calculate_tax_impact 500000).proposed.result = calculate_pita_2026 (500000 * 12)) :=
  ⟨(C2_branch_convergence 50000).1 (by norm_num),
   (C2_branch_convergence 500000).2 (by norm_num)⟩

/-- C3: the threshold test is inclusive.  For any annual income at or below
800000 — in particular exactly 800000 — the engine returns the zero-valued
records carrying `gross_income = annual_income` with every other field 0,
and zero relief and percentage change.  (That neither regime calculator is
invoked on this branch is visible in `branchVals`: the `else` arm mentions
only `zero_tax_result`.) -/
theorem C3_inclusive_threshold (m : ℚ) (h : m * 12 ≤ 800000) :
    calculate_tax_impact m =
      { monthly_income := m
        annual_income := m * 12
        current :=
          { label := "2024 PITA"
            result :=
              { gross_income := m * 12, taxable_income := 0, consolidated_relief := 0
                annual_tax := 0, monthly_tax := 0, effective_rate := 0 } }
        proposed :=
          { label := "2026 Reform"
            result :=
              { gross_income := m * 12, taxable_income := 0, consolidated_relief := 0
                annual_tax := 0, monthly_tax := 0, effective_rate := 0 } }
        impact := { monthly_relief := 0, annual_relief := 0, percentage_change := 0 } } := by
  rw [calculate_tax_impact_def, branchVals_of_le h, roundTo2_zero]
  rfl

/-- C3 witness: the boundary case, `annual_income` exactly 800000
(`monthly_income = 200000/3`). -/
theorem C3_inclusive_threshold_witness :
    (200000 / 3 : ℚ) * 12 ≤ 800000 ∧
    calculate_tax_impact (200000 / 3) =
      { monthly_income := 200000 / 3
        annual_income := (200000 / 3) * 12
        current :=
          { label := "2024 PITA"
            result :=
              { gross_income := (200000 / 3) * 12, taxable_income := 0
                consolidated_relief := 0, annual_tax := 0, monthly_tax := 0
                effective_rate := 0 } }
        proposed :=
          { label := "2026 Reform"
            result :=
              { gross_income := (200000 / 3) * 12, taxable_income := 0
                consolidated_relief := 0, annual_tax := 0, monthly_tax := 0
                effective_rate := 0 } }
        impact := { monthly_relief := 0, annual_relief := 0, percentage_change := 0 } } :=
  ⟨by norm_num, C3_inclusive_threshold (200000 / 3) (by norm_num)⟩

/-- C4: the annual income is derived before branching, and on every branch
the returned `annual_income` equals `monthly_income * 12`; on both branches
(not only the exemption one) the gross income carried by `current` and
`proposed` also equals that annual income — never zero or undefined. -/
theorem C4_annual_income_first (m : ℚ) :
    (calculate_tax_impact m).annual_income = m * 12 ∧
    (calculate_tax_impact m).current.result.gross_income = m * 12 ∧
    (calculate_tax_impact m).proposed.result.gross_income = m * 12 := by
  rw [calculate_tax_impact_def]
  refine ⟨rfl, ?_, ?_⟩ <;> by_cases h : m * 12 > 800000
  · rw [branchVals_of_gt h]; rfl
  · rw [branchVals_of_le (not_lt.mp h)]; rfl
  · rw [branchVals_of_gt h]; rfl
  · rw [branchVals_of_le (not_lt.mp h)]; rfl

/-- C5: on the taxable branch the percentage change is the relief as a
percentage of the current-regime tax when that tax is positive, and is 0
when that tax is zero: the zero-divisor case is a guarded branch yielding
0, never a failure (the engine is a total function). -/
theorem C5_percentage_change_guard (m : ℚ) (h : m * 12 > 800000) :
    ((calculate_pita_2024 (m * 12)).annual_tax > 0 →
      (calculate_tax_impact m).impact.percentage_change =
        roundTo2 (((calculate_pita_2024 (m * 12)).annual_tax -
            (calculate_pita_2026 (m * 12)).annual_tax) /
          (calculate_pita_2024 (m * 12)).annual_tax * 100)) ∧
    ((calculate_pita_2024 (m * 12)).annual_tax = 0 →
      (calculate_tax_impact m).impact.percentage_change = 0) := by
  rw [calculate_tax_impact_def, branchVals_of_gt h]
  constructor
  · intro hpos
    simp only [if_pos hpos]
  · intro hzero
    rw [show ((if (calculate_pita_2024 (m * 12)).annual_tax > 0 then
        ((calculate_pita_2024 (m * 12)).annual_tax -
          (calculate_pita_2026 (m * 12)).annual_tax) /
          (calculate_pita_2024 (m * 12)).annual_tax * 100 else 0) : ℚ) = 0 from
      if_neg (by rw [hzero]; exact lt_irrefl 0), roundTo2_zero]

/-- C5 witness: `monthly_income = 500000`; the 2024 tax at annual income
6000000 is 896000, which is positive, so the guarded quotient branch is
taken. -/
theorem C5_percentage_change_guard_witness :
    (500000 : ℚ) * 12 > 800000 ∧
    (calculate_tax_impact 500000).impact.percentage_change =
      roundTo2 (((calculate_pita_2024 (500000 * 12)).annual_tax -
          (calculate_pita_2026 (500000 * 12)).annual_tax) /
        (calculate_pita_2024 (500000 * 12)).annual_tax * 100) :=
  ⟨by norm_num,
   (C5_percentage_change_guard 500000 (by norm_num)).1 (by
      norm_num [calculate_pita_2024, regimeCompute, relief_2024, pitaBands2024,
        pitaTopRate2024, bracketTax])⟩

/-- C6: the three impact fields are the 2-decimal roundings of the
branch-local full-precision quantities, and on the taxable branch those
quantities are the unrounded tax difference, its unrounded twelfth, and
the percentage computed from the unrounded difference — rounding happens
only at the final assembly. -/
theorem C6_rounding_final_only (m : ℚ) :
    ((calculate_tax_impact m).impact.monthly_relief =
        roundTo2 (branchVals (m * 12)).monthly_relief ∧
      (calculate_tax_impact m).impact.annual_relief =
        roundTo2 (branchVals (m * 12)).annual_relief ∧
      (calculate_tax_impact m).impact.percentage_change =
        roundTo2 (branchVals (m * 12)).percentage_change) ∧
    (m * 12 > 800000 →
      (branchVals (m * 12)).annual_relief =
        (calculate_pita_2024 (m * 12)).annual_tax -
          (calculate_pita_2026 (m * 12)).annual_tax ∧
      (branchVals (m * 12)).monthly_relief =
        ((calculate_pita_2024 (m * 12)).annual_tax -
          (calculate_pita_2026 (m * 12)).annual_tax) / 12 ∧
      ((calculate_pita_2024 (m * 12)).annual_tax > 0 →
        (branchVals (m * 12)).percentage_change =
          ((calculate_pita_2024 (m * 12)).annual_tax -
            (calculate_pita_2026 (m * 12)).annual_tax) /
            (calculate_pita_2024 (m * 12)).annual_tax * 100)) := by
  refine ⟨⟨rfl, rfl, rfl⟩, fun h => ?_⟩
  rw [branchVals_of_gt h]
  exact ⟨rfl, rfl, fun hpos => by simp only [if_pos hpos]⟩

/-- C6 witness: the taxable-branch part applied at
`monthly_income = 500000`. -/
theorem C6_rounding_final_only_witness :
    (branchVals (500000 * 12)).annual_relief =
      (calculate_pita_2024 (500000 * 12)).annual_tax -
        (calculate_pita_2026 (500000 * 12)).annual_tax ∧
    (branchVals (500000 * 12)).monthly_relief =
      ((calculate_pita_2024 (500000 * 12)).annual_tax -
        (calculate_pita_2026 (500000 * 12)).annual_tax) / 12 :=
  ⟨((C6_rounding_final_only 500000).2 (by norm_num)).1,
   ((C6_rounding_final_only 500000).2 (by norm_num)).2.1⟩

/-- The bracket walk yields a non-negative tax whenever every band width,
every band rate and the top rate are non-negative. -/
theorem bracketTax_nonneg : ∀ (bands : List (ℚ × ℚ)) (topRate t : ℚ),
    (∀ p ∈ bands, 0 ≤ p.1 ∧ 0 ≤ p.2) → 0 ≤ topRate →
    0 ≤ bracketTax bands topRate t
  | [], topRate, t, _, htop => mul_nonneg htop (le_max_left 0 t)
  | (w, r) :: rest, topRate, t, hb, htop => by
    have hw : 0 ≤ w := (hb (w, r) (List.mem_cons_self _ _)).1
    have hr : 0 ≤ r := (hb (w, r) (List.mem_cons_self _ _)).2
    have h1 : 0 ≤ r * min (max 0 t) w :=
      mul_nonneg hr (le_min (le_max_left 0 t) hw)
    have h2 : 0 ≤ bracketTax rest topRate (t - w) :=
      bracketTax_nonneg rest topRate (t - w)
        (fun q hq => hb q (List.mem_cons_of_mem _ hq)) htop
    show 0 ≤ r * min (max 0 t) w + bracketTax rest topRate (t - w)
    linarith

/-- The bracket walk is monotone in taxable income whenever every band rate
and the top rate are non-negative (marginal-rate property). -/
theorem bracketTax_mono : ∀ (bands : List (ℚ × ℚ)) (topRate t1 t2 : ℚ),
    (∀ p ∈ bands, 0 ≤ p.2) → 0 ≤ topRate → t1 ≤ t2 →
    bracketTax bands topRate t1 ≤ bracketTax bands topRate t2
  | [], topRate, t1, t2, _, htop, h =>
    mul_le_mul_of_nonneg_left (max_le_max le_rfl h) htop
  | (w, r) :: rest, topRate, t1, t2, hb, htop, h => by
    have hr : 0 ≤ r := hb (w, r) (List.mem_cons_self _ _)
    have h1 : r * min (max 0 t1) w ≤ r * min (max 0 t2) w :=
      mul_le_mul_of_nonneg_left (min_le_min (max_le_max le_rfl h) le_rfl) hr
    have h2 : bracketTax rest topRate (t1 - w) ≤ bracketTax rest topRate (t2 - w) :=
      bracketTax_mono rest topRate (t1 - w) (t2 - w)
        (fun q hq => hb q (List.mem_cons_of_mem _ hq)) htop (by linarith)
    show r * min (max 0 t1) w + bracketTax rest topRate (t1 - w) ≤
      r * min (max 0 t2) w + bracketTax rest topRate (t2 - w)
    linarith

/-- Gross income minus a relief of the spec's shape — a floor-or-percentage
term plus a flat percentage term with coefficients summing to at most 1 —
is monotone in gross income. -/
theorem craSub_mono (F a b : ℚ) (ha : 0 ≤ a) (hab : a + b ≤ 1)
    {g1 g2 : ℚ} (h : g1 ≤ g2) :
    g1 - (max F (a * g1) + b * g1) ≤ g2 - (max F (a * g2) + b * g2) := by
  rcases max_cases F (a * g1) with ⟨e1, c1⟩ | ⟨e1, c1⟩ <;>
    rcases max_cases F (a * g2) with ⟨e2, c2⟩ | ⟨e2, c2⟩ <;>
      rw [e1, e2] <;>
      nlinarith [mul_nonneg ha (sub_nonneg.mpr h),
        mul_nonneg (sub_nonneg.mpr hab) (sub_nonneg.mpr h)]

/-- All 2024 band widths and rates are non-negative. -/
theorem pitaBands2024_nonneg : ∀ p ∈ pitaBands2024, 0 ≤ p.1 ∧ 0 ≤ p.2 := by
  intro p hp
  fin_cases hp <;> exact ⟨by norm_num, by norm_num⟩

/-- All 2026 band widths and rates are non-negative. -/
theorem pitaBands2026_nonneg : ∀ p ∈ pitaBands2026, 0 ≤ p.1 ∧ 0 ≤ p.2 := by
  intro p hp
  fin_cases hp <;> exact ⟨by norm_num, by norm_num⟩

/-- The 2024 relief is non-negative on non-negative income. -/
theorem relief_2024_nonneg (g : ℚ) (hg : 0 ≤ g) : 0 ≤ relief_2024 g := by
  unfold relief_2024
  have h1 : (200000 : ℚ) ≤ max 200000 (0.01 * g) := le_max_left _ _
  nlinarith

/-- The 2026 relief is non-negative on non-negative income. -/
theorem relief_2026_nonneg (g : ℚ) (hg : 0 ≤ g) : 0 ≤ relief_2026 g := by
  unfold relief_2026
  have h1 : (200000 : ℚ) ≤ max 200000 (0.01 * g) := le_max_left _ _
  nlinarith

/-- The 2024 taxable income is monotone in gross income. -/
theorem taxable_2024_mono {g1 g2 : ℚ} (h : g1 ≤ g2) :
    max 0 (g1 - relief_2024 g1) ≤ max 0 (g2 - relief_2024 g2) := by
  apply max_le_max le_rfl
  unfold relief_2024
  exact craSub_mono 200000 0.01 0.20 (by norm_num) (by norm_num) h

/-- The 2026 taxable income is monotone in gross income. -/
theorem taxable_2026_mono {g1 g2 : ℚ} (h : g1 ≤ g2) :
    max 0 (g1 - relief_2026 g1) ≤ max 0 (g2 - relief_2026 g2) := by
  apply max_le_max le_rfl
  unfold relief_2026
  exact craSub_mono 200000 0.01 0.20 (by norm_num) (by norm_num) h

/-- Every field of a regime-calculator result is non-negative, given
non-negative configuration, income and relief. -/
theorem regimeCompute_fields_nonneg (relief : ℚ → ℚ) (bands : List (ℚ × ℚ))
    (topRate g : ℚ) (hb : ∀ p ∈ bands, 0 ≤ p.1 ∧ 0 ≤ p.2) (htop : 0 ≤ topRate)
    (hg : 0 ≤ g) (hrel : 0 ≤ relief g) :
    0 ≤ (regimeCompute relief bands topRate g).gross_income ∧
    0 ≤ (regimeCompute relief bands topRate g).taxable_income ∧
    0 ≤ (regimeCompute relief bands topRate g).consolidated_relief ∧
    0 ≤ (regimeCompute relief bands topRate g).annual_tax ∧
    0 ≤ (regimeCompute relief bands topRate g).monthly_tax ∧
    0 ≤ (regimeCompute relief bands topRate g).effective_rate := by
  have htax : 0 ≤ bracketTax bands topRate (max 0 (g - relief g)) :=
    bracketTax_nonneg bands topRate _ hb htop
  refine ⟨hg, le_max_left 0 _, hrel, htax, div_nonneg htax (by norm_num), ?_⟩
  show 0 ≤ if g > 0 then bracketTax bands topRate (max 0 (g - relief g)) / g else 0
  split
  · exact div_nonneg htax (le_of_lt (by assumption))
  · exact le_rfl

/-- C7: for each fixed regime the annual tax is monotonically non-decreasing
in gross income over non-negative incomes, and every field of a regime
result is non-negative on non-negative income. -/
theorem C7_tax_monotone_and_nonneg :
    (∀ g1 g2 : ℚ, 0 ≤ g1 → g1 ≤ g2 →
      (calculate_pita_2024 g1).annual_tax ≤ (calculate_pita_2024 g2).annual_tax ∧
      (calculate_pita_2026 g1).annual_tax ≤ (calculate_pita_2026 g2).annual_tax) ∧
    (∀ g : ℚ, 0 ≤ g →
      (0 ≤ (calculate_pita_2024 g).gross_income ∧
       0 ≤ (calculate_pita_2024 g).taxable_income ∧
       0 ≤ (calculate_pita_2024 g).consolidated_relief ∧
       0 ≤ (calculate_pita_2024 g).annual_tax ∧
       0 ≤ (calculate_pita_2024 g).monthly_tax ∧
       0 ≤ (calculate_pita_2024 g).effective_rate) ∧
      (0 ≤ (calculate_pita_2026 g).gross_income ∧
       0 ≤ (calculate_pita_2026 g).taxable_income ∧
       0 ≤ (calculate_pita_2026 g).consolidated_relief ∧
       0 ≤ (calculate_pita_2026 g).annual_tax ∧
       0 ≤ (calculate_pita_2026 g).monthly_tax ∧
       0 ≤ (calculate_pita_2026 g).effective_rate)) := by
  constructor
  · intro g1 g2 _ h
    constructor
    · show bracketTax pitaBands2024 pitaTopRate2024 (max 0 (g1 - relief_2024 g1)) ≤
        bracketTax pitaBands2024 pitaTopRate2024 (max 0 (g2 - relief_2024 g2))
      exact bracketTax_mono pitaBands2024 pitaTopRate2024 _ _
        (fun p hp => (pitaBands2024_nonneg p hp).2)
        (by norm_num [pitaTopRate2024]) (taxable_2024_mono h)
    · show bracketTax pitaBands2026 pitaTopRate2026 (max 0 (g1 - relief_2026 g1)) ≤
        bracketTax pitaBands2026 pitaTopRate2026 (max 0 (g2 - relief_2026 g2))
      exact bracketTax_mono pitaBands2026 pitaTopRate2026 _ _
        (fun p hp => (pitaBands2026_nonneg p hp).2)
        (by norm_num [pitaTopRate2026]) (taxable_2026_mono h)
  · intro g hg
    exact ⟨regimeCompute_fields_nonneg relief_2024 pitaBands2024 pitaTopRate2024 g
        pitaBands2024_nonneg (by norm_num [pitaTopRate2024]) hg (relief_2024_nonneg g hg),
      regimeCompute_fields_nonneg relief_2026 pitaBands2026 pitaTopRate2026 g
        pitaBands2026_nonneg (by norm_num [pitaTopRate2026]) hg (relief_2026_nonneg g hg)⟩

/-- C7 witness: monotonicity applied at incomes 0 and 1000000 and
non-negativity at 1000000. -/
theorem C7_tax_monotone_and_nonneg_witness :
    ((calculate_pita_2024 0).annual_tax ≤ (calculate_pita_2024 1000000).annual_tax ∧
     (calculate_pita_2026 0).annual_tax ≤ (calculate_pita_2026 1000000).annual_tax) ∧
    (0 ≤ (calculate_pita_2024 1000000).annual_tax ∧
     0 ≤ (calculate_pita_2026 1000000).annual_tax) :=
  ⟨C7_tax_monotone_and_nonneg.1 0 1000000 le_rfl (by norm_num),
   (C7_tax_monotone_and_nonneg.2 1000000 (by norm_num)).1.2.2.2.1,
   (C7_tax_monotone_and_nonneg.2 1000000 (by norm_num)).2.2.2.2.1⟩

/-- C8: determinism.  The engine is embedded as a pure total function of
its single numeric argument (the source performs no I/O and touches no
mutable state), so equal inputs give identical results. -/
theorem C8_deterministic (x1 x2 : ℚ) (h : x1 = x2) :
    calculate_tax_impact x1 = calculate_tax_impact x2 := by
  rw [h]

/-- C8 witness: two invocations at 500000 agree. -/
theorem C8_deterministic_witness :
    calculate_tax_impact 500000 = calculate_tax_impact 500000 :=
  C8_deterministic 500000 500000 rfl

/-- C9: on every input — hence on both branches — the current record is
labeled "2024 PITA" and the proposed record "2026 Reform", and the result
carries all its fields: the top-level monthly and annual income and the
three-field impact record assembled from the branch-local values (the
structure types make omitting a field impossible; the equations show each
field's value is produced on every path). -/
theorem C9_labels_and_fields (m : ℚ) :
    (calculate_tax_impact m).current.label = "2024 PITA" ∧
    (calculate_tax_impact m).proposed.label = "2026 Reform" ∧
    (calculate_tax_impact m).monthly_income = m ∧
    (calculate_tax_impact m).annual_income = m * 12 ∧
    (calculate_tax_impact m).impact =
      { monthly_relief := roundTo2 (branchVals (m * 12)).monthly_relief
        annual_relief := roundTo2 (branchVals (m * 12)).annual_relief
        percentage_change := roundTo2 (branchVals (m * 12)).percentage_change } :=
  ⟨rfl, rfl, rfl, rfl, rfl⟩

/-- C10: on the taxable branch the monthly relief is the rounding of the
full-precision annual difference divided by 12 — not a twelfth of the
already-rounded annual relief. -/
theorem C10_monthly_relief_full_precision (m : ℚ) (h : m * 12 > 800000) :
    (calculate_tax_impact m).impact.monthly_relief =
      roundTo2 (((calculate_pita_2024 (m * 12)).annual_tax -
          (calculate_pita_2026 (m * 12)).annual_tax) / 12) := by
  rw [calculate_tax_impact_def, branchVals_of_gt h]

/-- C10 witness: applied at `monthly_income = 500000`. -/
theorem C10_monthly_relief_full_precision_witness :
    (500000 : ℚ) * 12 > 800000 ∧
    (calculate_tax_impact 500000).impact.monthly_relief =
      roundTo2 (((calculate_pita_2024 (500000 * 12)).annual_tax -
          (calculate_pita_2026 (500000 * 12)).annual_tax) / 12) :=
  ⟨by norm_num, C10_monthly_relief_full_precision 500000 (by norm_num)⟩

end TaxEngine
